import Mathlib

set_option autoImplicit false

/-!
Verification of the print-store event pipeline: the Stripe webhook handler
(src/app/page.tsx, second POST variant, lines 220-293), the server-side
analytics delivery with retry/backoff (ServerAnalytics.sendEvent,
src/unnamed/part_002 lines 69-121), and the client-side analytics hook with
its offline queue (useAnalytics, src/lib/analytics/use-analytics.ts) together
with the limits declared in src/lib/analytics/config.ts.
-/

namespace PrintStore

namespace Server

/-- Outcome of one delivery attempt as observed inside
`ServerAnalytics.sendEvent` (part_002 lines 80-93): a 2xx response
(`response.ok`), a non-2xx response carrying its HTTP status (thrown at
line 92 and caught below), or a network failure / abort (the `fetch` call
itself rejecting, including the 5s timeout). -/
inductive SinkResp where
  | ok : SinkResp
  | httpErr : Nat → SinkResp
  | netErr : SinkResp
deriving DecidableEq, Repr

/-- The retry-relevant part of `ServerAnalyticsConfig` (part_002 lines
12-19). -/
structure ServerConfig where
  enableRetries : Bool
  maxRetries : Nat
deriving DecidableEq, Repr

/-- `getServerAnalyticsConfig` (src/lib/analytics/config.ts lines 90-102)
returns `enableRetries: true, maxRetries: 3`; the `ServerAnalytics`
constructor defaults (part_002 lines 48-55) are the same. -/
def getServerAnalyticsConfig : ServerConfig :=
  { enableRetries := true, maxRetries := 3 }

/-- Trace of one `sendEvent` call: the boolean it resolves to, the
`retryCount` values of the attempts that failed, and the backoff delays
(ms) scheduled between attempts, in order. -/
structure SendOutcome where
  success : Bool
  failedAttempts : List Nat
  delays : List Nat
deriving DecidableEq, Repr

/-- Recursion core of `ServerAnalytics.sendEvent` (part_002 lines 69-121).
`sink a` is the sink's response to the attempt whose `retryCount` is `a`.
On a non-ok response or a network error the catch block (lines 103-120)
logs, and while `enableRetries && retryCount < maxRetries` waits
`Math.pow(2, retryCount) * 1000` ms (line 114) and recurses with
`retryCount + 1`; otherwise it resolves `false`.  The extra `fuel`
argument only bounds the recursion for Lean; `sendEvent` below passes
`maxRetries + 1 - retryCount`, which the guard `retryCount < maxRetries`
never exhausts, so the `fuel = 0` branch is unreachable from `sendEvent`. -/
def sendEventGo (cfg : ServerConfig) (sink : Nat → SinkResp) :
    Nat → Nat → SendOutcome
  | 0, _ => { success := false, failedAttempts := [], delays := [] }
  | fuel + 1, retryCount =>
    match sink retryCount with
    | SinkResp.ok => { success := true, failedAttempts := [], delays := [] }
    | _ =>
      if cfg.enableRetries = true ∧ retryCount < cfg.maxRetries then
        let rest := sendEventGo cfg sink fuel (retryCount + 1)
        { success := rest.success,
          failedAttempts := retryCount :: rest.failedAttempts,
          delays := 2 ^ retryCount * 1000 :: rest.delays }
      else
        { success := false, failedAttempts := [retryCount], delays := [] }

/-- `ServerAnalytics.sendEvent` (part_002 lines 69-121), started at the
given `retryCount` (the handler calls it with `retryCount = 0`). -/
def sendEvent (cfg : ServerConfig) (sink : Nat → SinkResp) (retryCount : Nat) :
    SendOutcome :=
  sendEventGo cfg sink (cfg.maxRetries + 1 - retryCount) retryCount

/-- A sink that fails every attempt with a network error. -/
def alwaysFailSink : Nat → SinkResp := fun _ => SinkResp.netErr

/-- A sink that fails the first three attempts and succeeds on the fourth
(attempts are numbered by their `retryCount`, starting at 0). -/
def failThriceSink : Nat → SinkResp := fun a =>
  if a < 3 then SinkResp.netErr else SinkResp.ok

end Server

namespace Client

/-- An entry of the offline event queue (`QueuedEvent` in
src/lib/analytics/types, as used by use-analytics.ts lines 133-139):
the event name, its (already enriched) parameters and the retry counter.
Parameters are kept abstract as a string payload; their concrete fields
play no role in the queueing logic. -/
structure QueuedEvent where
  eventName : String
  parameters : String
  retryCount : Nat
deriving DecidableEq, Repr

/-- `UseAnalyticsConfig` (use-analytics.ts lines 30-36); `debugMode` only
drives console logging and is omitted. -/
structure ClientConfig where
  enableOfflineQueue : Bool
  enableErrorTracking : Bool
  queueMaxSize : Nat
  retryAttempts : Nat
deriving DecidableEq, Repr

/-- The hook's defaults (use-analytics.ts lines 50-56):
`enableOfflineQueue = true`, `enableErrorTracking = true`,
`queueMaxSize = 100`, `retryAttempts = 3`. -/
def defaultClientConfig : ClientConfig :=
  { enableOfflineQueue := true, enableErrorTracking := true,
    queueMaxSize := 100, retryAttempts := 3 }

/-- The browser environment `sendEvent` runs in: whether `window.gtag` is
bound (line 114), whether the `gtag` dispatch itself throws (the catch at
lines 155-169), and the parameter enrichment of lines 123-129 (timestamp,
session id, page url; abstract here since no claim depends on its
content). -/
structure ClientEnv where
  gtagAvailable : Bool
  gtagThrows : Bool
  enrich : String → String

/-- The mutable state of the hook: the online flag (`isOnline` ref, line
59), the offline queue (`eventQueue` ref, line 58), plus the trace of
`window.gtag('event', ...)` dispatches actually issued (line 149, in
order), the retries scheduled via `setTimeout` (line 165-167), and the
error codes passed to `logError`. -/
structure ClientState where
  isOnline : Bool
  queue : List QueuedEvent
  sent : List QueuedEvent
  pendingRetries : List QueuedEvent
  errors : List String
deriving DecidableEq, Repr

/-- `sendEvent` (use-analytics.ts lines 109-170).  If `window.gtag` is not
available it returns with no effect at all (lines 114-119).  Otherwise the
parameters are enriched (lines 123-129); if the process is offline and the
offline queue is enabled, the event is appended to the queue only when the
queue is below `queueMaxSize`, and `sendEvent` returns (lines 132-146) —
a full queue silently drops the event.  Otherwise the event is dispatched
through `gtag` (line 149); if that call throws, the error is logged and,
while `retryCount < retryAttempts` and the offline queue is enabled, a
retry with `retryCount + 1` is scheduled after `2 ^ retryCount * 1000` ms
(lines 155-169, modelled by appending to `pendingRetries`; the retry is
scheduled with the original, unenriched parameters, line 166). -/
def sendEvent (cfg : ClientConfig) (env : ClientEnv) (s : ClientState)
    (eventName : String) (parameters : String) (retryCount : Nat) :
    ClientState :=
  if env.gtagAvailable = false then
    s
  else
    let enriched := env.enrich parameters
    if s.isOnline = false ∧ cfg.enableOfflineQueue = true then
      if s.queue.length < cfg.queueMaxSize then
        { s with queue := s.queue ++ [⟨eventName, enriched, retryCount⟩] }
      else
        s
    else if env.gtagThrows = true then
      let s1 := { s with errors := s.errors ++ ["EVENT_SEND_ERROR"] }
      if retryCount < cfg.retryAttempts ∧ cfg.enableOfflineQueue = true then
        { s1 with pendingRetries :=
            s1.pendingRetries ++ [⟨eventName, parameters, retryCount + 1⟩] }
      else
        s1
    else
      { s with sent := s.sent ++ [⟨eventName, enriched, retryCount⟩] }

/-- One iteration of the `forEach` body in `processEventQueue`
(use-analytics.ts lines 90-101): an entry still below `retryAttempts` is
re-sent with `retryCount + 1`; otherwise a `MAX_RETRIES_EXCEEDED` error is
logged and the entry is abandoned. -/
def processQueued (cfg : ClientConfig) (env : ClientEnv) (s : ClientState)
    (e : QueuedEvent) : ClientState :=
  if e.retryCount < cfg.retryAttempts then
    sendEvent cfg env s e.eventName e.parameters (e.retryCount + 1)
  else
    { s with errors := s.errors ++ ["MAX_RETRIES_EXCEEDED"] }

/-- `processEventQueue` (use-analytics.ts lines 84-106): a no-op when the
offline queue is disabled or empty; otherwise it snapshots the queue,
clears it, and processes the snapshot entries in their original order. -/
def processEventQueue (cfg : ClientConfig) (env : ClientEnv)
    (s : ClientState) : ClientState :=
  if cfg.enableOfflineQueue = false ∨ s.queue = [] then
    s
  else
    List.foldl (processQueued cfg env) { s with queue := [] } s.queue

/-- The `online` listener (use-analytics.ts lines 65-68): set
`isOnline := true`, then drain the queue. -/
def handleOnline (cfg : ClientConfig) (env : ClientEnv) (s : ClientState) :
    ClientState :=
  processEventQueue cfg env { s with isOnline := true }

/-- The `offline` listener (use-analytics.ts lines 70-72). -/
def handleOffline (s : ClientState) : ClientState :=
  { s with isOnline := false }

/-- The operations a caller or the browser can perform on the hook: a
`track*` call (all of them funnel into `sendEvent` with `retryCount = 0`,
lines 236-549), the `online` / `offline` window events, and a direct
`processEventQueue` call (the hook returns it, line 584). -/
inductive Action where
  | track : String → String → Action
  | online : Action
  | offline : Action
  | flush : Action
deriving DecidableEq, Repr

/-- Interpretation of one `Action` on the hook state. -/
def step (cfg : ClientConfig) (env : ClientEnv) (s : ClientState) :
    Action → ClientState
  | Action.track n p => sendEvent cfg env s n p 0
  | Action.online => handleOnline cfg env s
  | Action.offline => handleOffline s
  | Action.flush => processEventQueue cfg env s

/-- A sequence of operations on the hook state. -/
def run (cfg : ClientConfig) (env : ClientEnv) (s : ClientState)
    (as : List Action) : ClientState :=
  as.foldl (step cfg env) s

/-- The limits object `EVENT_CONFIG` (src/lib/analytics/config.ts lines
217-236), field for field. -/
structure EventLimits where
  MAX_QUEUE_SIZE : Nat
  QUEUE_FLUSH_INTERVAL : Nat
  MAX_RETRIES : Nat
  RETRY_DELAY_BASE : Nat
  RETRY_BACKOFF_MULTIPLIER : Nat
  MAX_EVENT_NAME_LENGTH : Nat
  MAX_PARAMETER_NAME_LENGTH : Nat
  MAX_PARAMETER_VALUE_LENGTH : Nat
  MAX_PARAMETERS_PER_EVENT : Nat
  MAX_EVENTS_PER_SECOND : Nat
  MAX_EVENTS_PER_MINUTE : Nat
deriving DecidableEq, Repr

/-- `EVENT_CONFIG` (config.ts lines 217-236).  Nothing in
use-analytics.ts reads it: the declared rate ceilings are never consulted
by the delivery path. -/
def EVENT_CONFIG : EventLimits :=
  { MAX_QUEUE_SIZE := 100, QUEUE_FLUSH_INTERVAL := 30000,
    MAX_RETRIES := 3, RETRY_DELAY_BASE := 1000,
    RETRY_BACKOFF_MULTIPLIER := 2,
    MAX_EVENT_NAME_LENGTH := 40, MAX_PARAMETER_NAME_LENGTH := 40,
    MAX_PARAMETER_VALUE_LENGTH := 500, MAX_PARAMETERS_PER_EVENT := 25,
    MAX_EVENTS_PER_SECOND := 10, MAX_EVENTS_PER_MINUTE := 100 }

/-- Eleven distinct track calls, used to exceed the declared
`MAX_EVENTS_PER_SECOND = 10` ceiling. -/
def elevenNames : List String :=
  ["e1", "e2", "e3", "e4", "e5", "e6", "e7", "e8", "e9", "e10", "e11"]

end Client

namespace Webhook

/-!
The Stripe webhook endpoint.  src/app/page.tsx contains two POST variants;
the one modelled here is the analytics variant (lines 220-293), the one the
claims cite for processing behaviour.  Both variants share the same
verification structure (`stripe.webhooks.constructEvent` first, `400` on
throw).
-/

/-- JavaScript truthiness of a string with a default:
`x || d` is `d` when `x` is null/undefined or the empty string. -/
def jsOrString (o : Option String) (d : String) : String :=
  match o with
  | none => d
  | some s => if s = "" then d else s

/-- JavaScript truthiness of `session.amount_total` (line 241 of
page.tsx): `null`/`undefined` and `0` are falsy. -/
def truthyAmount : Option Int → Bool
  | none => false
  | some n => n != 0

/-- The fields of `Stripe.Checkout.Session` the handler reads (lines
238-271).  Monetary values are kept in cents; the handler divides by 100
to convert to currency units before handing them to the analytics client,
a scaling that no claim depends on. -/
structure StripeSession where
  id : String
  payment_status : String
  amount_total : Option Int
  currency : Option String
deriving DecidableEq, Repr

/-- A verified `Stripe.Event` as produced by
`stripe.webhooks.constructEvent`: its id, its declared `type`, and
`event.data.object`, read as a checkout session by the
`checkout.session.completed` branch. -/
structure StripeEvent where
  id : String
  type : String
  session : StripeSession
deriving DecidableEq, Repr

/-- One entry of `stripe.checkout.sessions.listLineItems(...).data`
as the handler reads it (lines 248-257): the expanded product's id and
name, the line amount and the quantity, each possibly absent. -/
structure LineItem where
  productId : Option String
  productName : Option String
  amount_total : Option Int
  quantity : Option Nat
deriving DecidableEq, Repr

/-- The item record built at lines 248-257:
`id: product?.id || 'unknown'`, `title: product?.name || 'Unknown
Product'`, `price: (item.amount_total || 0) / 100` (kept in cents here),
`quantity: item.quantity || 1`, `category: 'prints'`. -/
structure TrackedItem where
  id : String
  title : String
  priceCents : Int
  quantity : Nat
  category : String
deriving DecidableEq, Repr

/-- The mapping of lines 248-257 for one line item. -/
def formatItem (it : LineItem) : TrackedItem :=
  { id := jsOrString it.productId "unknown",
    title := jsOrString it.productName "Unknown Product",
    priceCents := it.amount_total.getD 0,
    quantity := match it.quantity with
      | none => 1
      | some q => if q = 0 then 1 else q,
    category := "prints" }

/-- `session.currency?.toUpperCase() || 'USD'` (line 263): the upper-cased
currency, with `null` and the empty string falling back to `USD`. -/
def currencyOf (c : Option String) : String :=
  jsOrString (c.map String.toUpper) "USD"

/-- One invocation of `trackServerPurchase` (lines 259-271): the purchase
record handed to the analytics client.  (`tax`, `shipping` and the user
properties are also forwarded there; no claim depends on them.) -/
structure TrackedPurchase where
  transactionId : String
  items : List TrackedItem
  totalCents : Int
  currency : String
deriving DecidableEq, Repr

/-- The collaborators the handler calls out to:
`stripe.webhooks.constructEvent(payload, signature, webhookSecret)`
(line 227, the Stripe SDK signature verifier — `none` models the throw on
a malformed header, an expired timestamp or a digest mismatch) and
`stripe.checkout.sessions.listLineItems(session.id, ...)` (line 244 —
`none` models the call rejecting, e.g. a network failure of the catalog
lookup). -/
structure WebhookEnv where
  verify : String → String → Option StripeEvent
  listLineItems : String → Option (List LineItem)

/-- What one delivery produced: the HTTP status of the response, the
`trackServerPurchase` invocations, the `console.error` messages and the
`console.log` messages. -/
structure HandlerResult where
  status : Nat
  purchases : List TrackedPurchase
  errorLogs : List String
  infoLogs : List String
deriving DecidableEq, Repr

/-- The webhook POST handler (page.tsx lines 220-293).  Verification runs
first and a throw returns `400` immediately (lines 226-234).  For
`checkout.session.completed` with `payment_status === 'paid'` and a truthy
`amount_total` (line 241), the line items are fetched and
`trackServerPurchase` is invoked; the surrounding `try`/`catch` (lines
242-274) turns any failure of that block into a `console.error` only.
`invoice.payment_failed` is ignored; the subscription events call
`handleSubscriptionChange` (external, modelled as a log); any other type
is logged as unhandled.  All verified paths answer
`200 {received: true}` (line 292). -/
def POST (env : WebhookEnv) (payload : String) (signature : String) :
    HandlerResult :=
  match env.verify payload signature with
  | none =>
    { status := 400, purchases := [],
      errorLogs := ["Webhook signature verification failed."],
      infoLogs := [] }
  | some event =>
    if event.type = "checkout.session.completed" then
      let session := event.session
      if session.payment_status = "paid" ∧
          truthyAmount session.amount_total = true then
        match env.listLineItems session.id with
        | none =>
          { status := 200, purchases := [],
            errorLogs := ["Failed to track purchase:"], infoLogs := [] }
        | some lineItems =>
          { status := 200,
            purchases := [{ transactionId := session.id,
                            items := lineItems.map formatItem,
                            totalCents := session.amount_total.getD 0,
                            currency := currencyOf session.currency }],
            errorLogs := [], infoLogs := [] }
      else
        { status := 200, purchases := [], errorLogs := [], infoLogs := [] }
    else if event.type = "invoice.payment_failed" then
      { status := 200, purchases := [], errorLogs := [], infoLogs := [] }
    else if event.type = "customer.subscription.updated" ∨
        event.type = "customer.subscription.deleted" then
      { status := 200, purchases := [], errorLogs := [],
        infoLogs := ["handleSubscriptionChange"] }
    else
      { status := 200, purchases := [], errorLogs := [],
        infoLogs := ["Unhandled event type " ++ event.type] }

/-- A sequence of deliveries.  The handler holds no state between
requests — nothing in the repository implements a `ProcessedEventRecord`
store or any other idempotency bookkeeping — so successive deliveries are
processed independently of each other. -/
def runWebhooks (env : WebhookEnv) (reqs : List (String × String)) :
    List HandlerResult :=
  reqs.map (fun r => POST env r.1 r.2)

/-- The result of the happy checkout path for event `e` with fetched line
items `items`. -/
def purchaseResult (e : StripeEvent) (items : List LineItem) :
    HandlerResult :=
  { status := 200,
    purchases := [{ transactionId := e.session.id,
                    items := items.map formatItem,
                    totalCents := e.session.amount_total.getD 0,
                    currency := currencyOf e.session.currency }],
    errorLogs := [], infoLogs := [] }

/-- A concrete paid checkout session. -/
def paidSession : StripeSession :=
  { id := "cs_1", payment_status := "paid",
    amount_total := some 5000, currency := some "usd" }

/-- A concrete verified `checkout.session.completed` event. -/
def paidEvent : StripeEvent :=
  { id := "evt_1", type := "checkout.session.completed",
    session := paidSession }

/-- A concrete line item. -/
def oneItem : LineItem :=
  { productId := some "prod_1", productName := some "Sunset Print",
    amount_total := some 5000, quantity := some 1 }

/-- An environment in which the payload `"payload1"` verifies to
`paidEvent` and the line-item fetch succeeds. -/
def happyEnv : WebhookEnv :=
  { verify := fun p _ => if p = "payload1" then some paidEvent else none,
    listLineItems := fun _ => some [oneItem] }

/-- A paid checkout session whose `amount_total` is absent. -/
def missingAmountSession : StripeSession :=
  { id := "cs_2", payment_status := "paid",
    amount_total := none, currency := some "usd" }

/-- A verified `checkout.session.completed` event missing the total. -/
def missingAmountEvent : StripeEvent :=
  { id := "evt_2", type := "checkout.session.completed",
    session := missingAmountSession }

/-- An environment delivering `missingAmountEvent`. -/
def missingAmountEnv : WebhookEnv :=
  { verify := fun _ _ => some missingAmountEvent,
    listLineItems := fun _ => some [oneItem] }

/-- An environment in which the line-item fetch always fails (the
transient catalog-lookup failure of the claim). -/
def fetchFailEnv : WebhookEnv :=
  { verify := fun _ _ => some paidEvent,
    listLineItems := fun _ => none }

end Webhook

end PrintStore

namespace PrintStore

namespace Server

/-- C3: with the default configuration (`maxRetries = 3`), the delay
scheduled after the k-th consecutive failure is `1000 * 2 ^ (k - 1)` ms, so
whatever the sink does, the scheduled delays are an initial segment of
`[1000, 2000, 4000]`; a sink that always fails sees the initial attempt plus
the three retries (failed attempts at retryCount 0, 1, 2, 3) and the call
then resolves `false` with no further delivery attempt (the terminal,
dead-letter outcome); a sink that fails three times and succeeds on the
fourth attempt resolves `true` with exactly three recorded failed
attempts. -/
theorem backoff_schedule :
    (∀ sink : Nat → SinkResp,
      (sendEvent getServerAnalyticsConfig sink 0).delays = [] ∨
      (sendEvent getServerAnalyticsConfig sink 0).delays = [1000] ∨
      (sendEvent getServerAnalyticsConfig sink 0).delays = [1000, 2000] ∨
      (sendEvent getServerAnalyticsConfig sink 0).delays = [1000, 2000, 4000]) ∧
    sendEvent getServerAnalyticsConfig alwaysFailSink 0 =
      { success := false, failedAttempts := [0, 1, 2, 3],
        delays := [1000, 2000, 4000] } ∧
    sendEvent getServerAnalyticsConfig failThriceSink 0 =
      { success := true, failedAttempts := [0, 1, 2],
        delays := [1000, 2000, 4000] } := by
  refine ⟨?_, by decide, by decide⟩
  intro sink
  rcases h0 : sink 0 with _ | n0 | _ <;>
    rcases h1 : sink 1 with _ | n1 | _ <;>
      rcases h2 : sink 2 with _ | n2 | _ <;>
        rcases h3 : sink 3 with _ | n3 | _ <;>
          simp [sendEvent, sendEventGo, getServerAnalyticsConfig, h0, h1, h2, h3]

/-- C4 counterexample: a sink that answers every attempt with HTTP 400 (a
non-rate-limit 4xx) is not dropped after the first attempt: the handler
retries it three times with the usual backoff (failed attempts at
retryCount 0, 1, 2, 3 and delays 1000, 2000, 4000 ms), refuting "dropped
immediately ... never retried". -/
theorem http400_retried :
    sendEvent getServerAnalyticsConfig (fun _ => SinkResp.httpErr 400) 0 =
      { success := false, failedAttempts := [0, 1, 2, 3],
        delays := [1000, 2000, 4000] } ∧
    (sendEvent getServerAnalyticsConfig
        (fun _ => SinkResp.httpErr 400) 0).failedAttempts.length ≠ 1 := by
  exact ⟨by decide, by decide⟩

/-- C4 amended: `sendEvent` makes no distinction between permanent and
transient failures: every non-2xx status (any 4xx included) is thrown at
line 92 of part_002 and lands in the same catch block as a network error,
so it is retried with the same backoff and, after the retries are
exhausted, the call resolves `false` exactly as for a network failure. -/
theorem all_failures_retried_uniformly :
    ∀ status : Nat,
      sendEvent getServerAnalyticsConfig (fun _ => SinkResp.httpErr status) 0 =
        sendEvent getServerAnalyticsConfig (fun _ => SinkResp.netErr) 0 ∧
      sendEvent getServerAnalyticsConfig (fun _ => SinkResp.httpErr status) 0 =
        { success := false, failedAttempts := [0, 1, 2, 3],
          delays := [1000, 2000, 4000] } := by
  intro status
  exact ⟨rfl, rfl⟩

end Server

namespace Client

/-- Helper: one `sendEvent` call never grows the queue beyond
`queueMaxSize`. -/
theorem sendEvent_queue_le (cfg : ClientConfig) (env : ClientEnv)
    (s : ClientState) (n p : String) (rc : Nat)
    (h : s.queue.length ≤ cfg.queueMaxSize) :
    (sendEvent cfg env s n p rc).queue.length ≤ cfg.queueMaxSize := by
  unfold sendEvent
  split_ifs with h1 h2 h3 h4 h5 <;> simp_all [List.length_append]
  omega

/-- Helper: one `processQueued` step never grows the queue beyond
`queueMaxSize`. -/
theorem processQueued_queue_le (cfg : ClientConfig) (env : ClientEnv)
    (s : ClientState) (e : QueuedEvent)
    (h : s.queue.length ≤ cfg.queueMaxSize) :
    (processQueued cfg env s e).queue.length ≤ cfg.queueMaxSize := by
  unfold processQueued
  split_ifs
  · exact sendEvent_queue_le cfg env s e.eventName e.parameters
      (e.retryCount + 1) h
  · simpa using h

/-- Helper: folding `processQueued` preserves the capacity bound. -/
theorem foldl_processQueued_queue_le (cfg : ClientConfig) (env : ClientEnv)
    (es : List QueuedEvent) :
    ∀ s : ClientState, s.queue.length ≤ cfg.queueMaxSize →
      (List.foldl (processQueued cfg env) s es).queue.length ≤
        cfg.queueMaxSize := by
  induction es with
  | nil => intro s h; simpa using h
  | cons e es ih =>
    intro s h
    exact ih (processQueued cfg env s e) (processQueued_queue_le cfg env s e h)

/-- Helper: `processEventQueue` preserves the capacity bound. -/
theorem processEventQueue_queue_le (cfg : ClientConfig) (env : ClientEnv)
    (s : ClientState) (h : s.queue.length ≤ cfg.queueMaxSize) :
    (processEventQueue cfg env s).queue.length ≤ cfg.queueMaxSize := by
  unfold processEventQueue
  split_ifs
  · exact h
  · exact foldl_processQueued_queue_le cfg env s.queue
      { s with queue := [] } (by simp)

/-- Helper: every single operation preserves the capacity bound. -/
theorem step_queue_le (cfg : ClientConfig) (env : ClientEnv)
    (s : ClientState) (a : Action)
    (h : s.queue.length ≤ cfg.queueMaxSize) :
    (step cfg env s a).queue.length ≤ cfg.queueMaxSize := by
  cases a with
  | track n p => exact sendEvent_queue_le cfg env s n p 0 h
  | online =>
    exact processEventQueue_queue_le cfg env { s with isOnline := true }
      (by simpa using h)
  | offline => simpa using h
  | flush => exact processEventQueue_queue_le cfg env s h

/-- Helper: a run of operations preserves the capacity bound. -/
theorem run_queue_le (cfg : ClientConfig) (env : ClientEnv)
    (as : List Action) :
    ∀ s : ClientState, s.queue.length ≤ cfg.queueMaxSize →
      (run cfg env s as).queue.length ≤ cfg.queueMaxSize := by
  induction as with
  | nil => intro s h; simpa [run] using h
  | cons a as ih =>
    intro s h
    exact ih (step cfg env s a) (step_queue_le cfg env s a h)

/-- Helper: while online, with `gtag` bound and not throwing, folding
`processQueued` over entries that are all below the retry limit dispatches
each of them through `gtag`, in order, and touches nothing else. -/
theorem foldl_processQueued_online (cfg : ClientConfig) (env : ClientEnv)
    (hg : env.gtagAvailable = true) (ht : env.gtagThrows = false)
    (es : List QueuedEvent) :
    ∀ s : ClientState, s.isOnline = true →
      (∀ e ∈ es, e.retryCount < cfg.retryAttempts) →
      List.foldl (processQueued cfg env) s es =
        { s with sent := s.sent ++ es.map (fun e =>
            ⟨e.eventName, env.enrich e.parameters, e.retryCount + 1⟩) } := by
  induction es with
  | nil => intro s _ _; simp
  | cons e es ih =>
    intro s hon hall
    have he : e.retryCount < cfg.retryAttempts := hall e (by simp)
    have hstep : processQueued cfg env s e =
        { s with sent := s.sent ++
            [⟨e.eventName, env.enrich e.parameters, e.retryCount + 1⟩] } := by
      simp [processQueued, sendEvent, hg, ht, hon, he]
    rw [List.foldl_cons, hstep,
      ih _ (by simp [hon]) (fun x hx => hall x (by simp [hx]))]
    simp

/-- Helper: draining the queue on the `online` event.  If the queue held
`es` and every entry is still below the retry limit, `handleOnline`
dispatches all of them in their original order and empties the queue
(when the queue was empty it is a no-op apart from the online flag). -/
theorem handleOnline_drains (cfg : ClientConfig) (env : ClientEnv)
    (hg : env.gtagAvailable = true) (ht : env.gtagThrows = false)
    (hq : cfg.enableOfflineQueue = true) (es : List QueuedEvent)
    (hall : ∀ e ∈ es, e.retryCount < cfg.retryAttempts) :
    ∀ s : ClientState, s.queue = es →
      handleOnline cfg env s =
        if es = [] then { s with isOnline := true }
        else
          { s with
              isOnline := true
              queue := []
              sent := s.sent ++ es.map (fun e =>
                ⟨e.eventName, env.enrich e.parameters, e.retryCount + 1⟩) } := by
  intro s hsq
  unfold handleOnline processEventQueue
  rcases heq : es with _ | ⟨e, es0⟩
  · simp [hsq, heq, hq]
  · rw [if_neg (by simp [hq, hsq, heq])]
    have := foldl_processQueued_online cfg env hg ht s.queue
      { s with isOnline := true, queue := [] } rfl
      (by rw [hsq]; exact fun x hx => hall x (heq ▸ hx))
    rw [this, hsq, heq]
    simp

/-- Helper: mapping a name-preserving event constructor over a list of
names and projecting the name back is the identity. -/
theorem map_eventName_id (f : String → QueuedEvent)
    (hf : ∀ n, (f n).eventName = n) (l : List String) :
    List.map (QueuedEvent.eventName ∘ f) l = l := by
  induction l with
  | nil => rfl
  | cons a t ih => simp [hf, ih]

/-- Helper: while offline (with `gtag` bound and the offline queue
enabled), a sequence of track calls that fits under the capacity only
appends to the queue, in call order, with `retryCount = 0`; nothing is
dispatched. -/
theorem run_track_offline (cfg : ClientConfig) (env : ClientEnv) (p : String)
    (hg : env.gtagAvailable = true) (hq : cfg.enableOfflineQueue = true)
    (names : List String) :
    ∀ s : ClientState, s.isOnline = false →
      s.queue.length + names.length ≤ cfg.queueMaxSize →
      run cfg env s (names.map (fun n => Action.track n p)) =
        { s with queue := s.queue ++ names.map (fun n =>
            ⟨n, env.enrich p, 0⟩) } := by
  induction names with
  | nil => intro s _ _; simp [run]
  | cons n ns ih =>
    intro s hoff hlen
    have hlt : s.queue.length < cfg.queueMaxSize := by
      simp only [List.length_cons] at hlen; omega
    have hstep : sendEvent cfg env s n p 0 =
        { s with queue := s.queue ++ [⟨n, env.enrich p, 0⟩] } := by
      simp [sendEvent, hg, hq, hoff, hlt]
    have hrest := ih { s with queue := s.queue ++ [⟨n, env.enrich p, 0⟩] }
      (by simpa using hoff)
      (by simp only [List.length_cons] at hlen; simp; omega)
    simp only [List.map_cons, run, List.foldl_cons, step, hstep]
    rw [show List.foldl (step cfg env)
        { s with queue := s.queue ++ [⟨n, env.enrich p, 0⟩] }
        (ns.map (fun n => Action.track n p)) =
        run cfg env { s with queue := s.queue ++ [⟨n, env.enrich p, 0⟩] }
        (ns.map (fun n => Action.track n p)) from rfl, hrest]
    simp

/-- Helper: while online (with `gtag` bound and not throwing), every track
call is dispatched through `gtag` immediately, in call order; the queue is
untouched. -/
theorem run_track_online (cfg : ClientConfig) (env : ClientEnv) (p : String)
    (hg : env.gtagAvailable = true) (ht : env.gtagThrows = false)
    (names : List String) :
    ∀ s : ClientState, s.isOnline = true →
      run cfg env s (names.map (fun n => Action.track n p)) =
        { s with sent := s.sent ++ names.map (fun n =>
            ⟨n, env.enrich p, 0⟩) } := by
  induction names with
  | nil => intro s _; simp [run]
  | cons n ns ih =>
    intro s hon
    have hstep : sendEvent cfg env s n p 0 =
        { s with sent := s.sent ++ [⟨n, env.enrich p, 0⟩] } := by
      simp [sendEvent, hg, ht, hon]
    have hrest := ih { s with sent := s.sent ++ [⟨n, env.enrich p, 0⟩] }
      (by simpa using hon)
    simp only [List.map_cons, run, List.foldl_cons, step, hstep]
    rw [show List.foldl (step cfg env)
        { s with sent := s.sent ++ [⟨n, env.enrich p, 0⟩] }
        (ns.map (fun n => Action.track n p)) =
        run cfg env { s with sent := s.sent ++ [⟨n, env.enrich p, 0⟩] }
        (ns.map (fun n => Action.track n p)) from rfl, hrest]
    simp

/-- C5: the queue never exceeds the configured capacity — any run of
operations preserves `queue.length ≤ queueMaxSize`; an enqueue hitting a
full queue (offline, offline queue enabled, `queue.length = queueMaxSize`)
is rejected with the whole state, in particular every existing entry,
unchanged; an enqueue on a non-full queue appends the event at the tail,
preserving enqueue order. -/
theorem queue_capacity_invariant :
    (∀ (cfg : ClientConfig) (env : ClientEnv) (s : ClientState)
        (as : List Action),
      s.queue.length ≤ cfg.queueMaxSize →
      (run cfg env s as).queue.length ≤ cfg.queueMaxSize) ∧
    (∀ (cfg : ClientConfig) (env : ClientEnv) (s : ClientState)
        (n p : String) (rc : Nat),
      s.isOnline = false → cfg.enableOfflineQueue = true →
      s.queue.length = cfg.queueMaxSize →
      sendEvent cfg env s n p rc = s) ∧
    (∀ (cfg : ClientConfig) (env : ClientEnv) (s : ClientState)
        (n p : String) (rc : Nat),
      env.gtagAvailable = true → s.isOnline = false →
      cfg.enableOfflineQueue = true →
      s.queue.length < cfg.queueMaxSize →
      sendEvent cfg env s n p rc =
        { s with queue := s.queue ++ [⟨n, env.enrich p, rc⟩] }) := by
  refine ⟨?_, ?_, ?_⟩
  · intro cfg env s as h
    exact run_queue_le cfg env as s h
  · intro cfg env s n p rc hoff hq hfull
    simp [sendEvent, hoff, hq, hfull]
  · intro cfg env s n p rc hg hoff hq hlt
    simp [sendEvent, hg, hoff, hq, hlt]

/-- C5 witness: the capacity bound holds along a concrete run; with
capacity 0 an enqueue is rejected unchanged; on a non-full queue the event
is appended. -/
theorem queue_capacity_invariant_witness :
    ((⟨false, [], [], [], []⟩ : ClientState).queue.length ≤
        defaultClientConfig.queueMaxSize ∧
      (run defaultClientConfig ⟨true, false, id⟩ ⟨false, [], [], [], []⟩
          [Action.track "a" "p", Action.online]).queue.length ≤
        defaultClientConfig.queueMaxSize) ∧
    sendEvent ⟨true, true, 0, 3⟩ ⟨true, false, id⟩ ⟨false, [], [], [], []⟩
        "a" "p" 0 = (⟨false, [], [], [], []⟩ : ClientState) ∧
    sendEvent defaultClientConfig ⟨true, false, id⟩ ⟨false, [], [], [], []⟩
        "a" "p" 0 = (⟨false, [⟨"a", "p", 0⟩], [], [], []⟩ : ClientState) :=
  ⟨⟨by decide,
    queue_capacity_invariant.1 defaultClientConfig ⟨true, false, id⟩
      ⟨false, [], [], [], []⟩ [Action.track "a" "p", Action.online]
      (by decide)⟩,
   queue_capacity_invariant.2.1 ⟨true, true, 0, 3⟩ ⟨true, false, id⟩
     ⟨false, [], [], [], []⟩ "a" "p" 0 rfl rfl rfl,
   queue_capacity_invariant.2.2 defaultClientConfig ⟨true, false, id⟩
     ⟨false, [], [], [], []⟩ "a" "p" 0 rfl rfl rfl (by decide)⟩

/-- C6: while offline (offline queue enabled, `gtag` bound), every tracked
event is stored in the queue with no `gtag` dispatch issued; on the
`online` transition the queue is drained and all pending events are
dispatched in their original enqueue order, leaving the queue empty. -/
theorem offline_queue_fifo_drain :
    ∀ (enrich : String → String) (s : ClientState) (names : List String)
      (p : String),
      s.isOnline = false → s.queue = [] →
      names.length ≤ defaultClientConfig.queueMaxSize →
      (run defaultClientConfig ⟨true, false, enrich⟩ s
          (names.map (fun n => Action.track n p))).sent = s.sent ∧
      (run defaultClientConfig ⟨true, false, enrich⟩ s
          (names.map (fun n => Action.track n p))).queue.map
          QueuedEvent.eventName = names ∧
      (handleOnline defaultClientConfig ⟨true, false, enrich⟩
          (run defaultClientConfig ⟨true, false, enrich⟩ s
            (names.map (fun n => Action.track n p)))).sent.map
          QueuedEvent.eventName =
        s.sent.map QueuedEvent.eventName ++ names ∧
      (handleOnline defaultClientConfig ⟨true, false, enrich⟩
          (run defaultClientConfig ⟨true, false, enrich⟩ s
            (names.map (fun n => Action.track n p)))).queue = [] := by
  intro enrich s names p hoff hq0 hlen
  have hrun : run defaultClientConfig ⟨true, false, enrich⟩ s
      (names.map (fun n => Action.track n p)) =
      { s with queue := s.queue ++ names.map (fun n => ⟨n, enrich p, 0⟩) } :=
    run_track_offline defaultClientConfig ⟨true, false, enrich⟩ p rfl rfl
      names s hoff (by simpa [hq0] using hlen)
  have hdrain := handleOnline_drains defaultClientConfig ⟨true, false, enrich⟩
    rfl rfl rfl (names.map (fun n => ⟨n, enrich p, 0⟩))
    (by intro e he; simp at he; obtain ⟨n, -, hn⟩ := he; simp [← hn]; decide)
    { s with queue := s.queue ++ names.map (fun n => ⟨n, enrich p, 0⟩) }
    (by simp [hq0])
  rw [hrun, hdrain]
  rcases names with _ | ⟨n0, ns⟩
  · simp [hq0]
  · simp [hq0, List.map_map, Function.comp]
    exact ⟨map_eventName_id _ (fun n => rfl) ns,
      map_eventName_id _ (fun n => rfl) ns⟩

/-- C6 witness: three events tracked offline are queued unsent, then
dispatched in order on reconnection. -/
theorem offline_queue_fifo_drain_witness :
    ((⟨false, [], [], [], []⟩ : ClientState).isOnline = false ∧
      (⟨false, [], [], [], []⟩ : ClientState).queue = [] ∧
      (["a", "b", "c"] : List String).length ≤
        defaultClientConfig.queueMaxSize) ∧
    ((run defaultClientConfig ⟨true, false, id⟩ ⟨false, [], [], [], []⟩
        (["a", "b", "c"].map (fun n => Action.track n "p"))).sent = [] ∧
      (run defaultClientConfig ⟨true, false, id⟩ ⟨false, [], [], [], []⟩
        (["a", "b", "c"].map (fun n => Action.track n "p"))).queue.map
        QueuedEvent.eventName = ["a", "b", "c"] ∧
      (handleOnline defaultClientConfig ⟨true, false, id⟩
        (run defaultClientConfig ⟨true, false, id⟩ ⟨false, [], [], [], []⟩
          (["a", "b", "c"].map (fun n => Action.track n "p")))).sent.map
        QueuedEvent.eventName =
        ([] : List QueuedEvent).map QueuedEvent.eventName ++ ["a", "b", "c"] ∧
      (handleOnline defaultClientConfig ⟨true, false, id⟩
        (run defaultClientConfig ⟨true, false, id⟩ ⟨false, [], [], [], []⟩
          (["a", "b", "c"].map (fun n => Action.track n "p")))).queue = []) :=
  ⟨⟨rfl, rfl, by decide⟩,
    offline_queue_fifo_drain id ⟨false, [], [], [], []⟩ ["a", "b", "c"] "p"
      rfl rfl (by decide)⟩

/-- C9 counterexample: `EVENT_CONFIG` declares a ceiling of 10 events per
second, yet eleven consecutive track calls while online are all dispatched
through `gtag` immediately — none is deferred into the queue or a pending
timer.  (The send path of use-analytics.ts lines 109-170 contains no rate
check at all, so the eleven dispatches happen with no delay between them.) -/
theorem rate_ceiling_exceeded_immediately :
    EVENT_CONFIG.MAX_EVENTS_PER_SECOND = 10 ∧
    elevenNames.length = 11 ∧
    (run defaultClientConfig ⟨true, false, id⟩ ⟨true, [], [], [], []⟩
        (elevenNames.map (fun n => Action.track n "p"))).sent.length = 11 ∧
    (run defaultClientConfig ⟨true, false, id⟩ ⟨true, [], [], [], []⟩
        (elevenNames.map (fun n => Action.track n "p"))).queue = [] ∧
    (run defaultClientConfig ⟨true, false, id⟩ ⟨true, [], [], [], []⟩
        (elevenNames.map (fun n => Action.track n "p"))).pendingRetries
      = [] := by
  exact ⟨rfl, rfl, by decide, by decide, by decide⟩

/-- C9 amended: the rate ceilings exist only as constants
(`EVENT_CONFIG.MAX_EVENTS_PER_SECOND = 10`,
`EVENT_CONFIG.MAX_EVENTS_PER_MINUTE = 100` in config.ts); the delivery
path never consults them: while online with `gtag` bound, every tracked
event is dispatched immediately in call order, and no deferral of any kind
takes place. -/
theorem rate_ceiling_unenforced :
    EVENT_CONFIG.MAX_EVENTS_PER_SECOND = 10 ∧
    EVENT_CONFIG.MAX_EVENTS_PER_MINUTE = 100 ∧
    ∀ (enrich : String → String) (s : ClientState) (names : List String)
      (p : String),
      s.isOnline = true →
      run defaultClientConfig ⟨true, false, enrich⟩ s
          (names.map (fun n => Action.track n p)) =
        { s with sent := s.sent ++ names.map (fun n =>
            ⟨n, enrich p, 0⟩) } := by
  refine ⟨rfl, rfl, ?_⟩
  intro enrich s names p hon
  exact run_track_online defaultClientConfig ⟨true, false, enrich⟩ p rfl rfl
    names s hon

/-- C9 amended witness: two online track calls are both dispatched
immediately. -/
theorem rate_ceiling_unenforced_witness :
    (⟨true, [], [], [], []⟩ : ClientState).isOnline = true ∧
    run defaultClientConfig ⟨true, false, id⟩ ⟨true, [], [], [], []⟩
        (["a", "b"].map (fun n => Action.track n "p")) =
      (⟨true, [], [⟨"a", "p", 0⟩, ⟨"b", "p", 0⟩], [], []⟩ : ClientState) :=
  ⟨rfl, rate_ceiling_unenforced.2.2 id ⟨true, [], [], [], []⟩ ["a", "b"]
    "p" rfl⟩

/-- C10: when `window.gtag` is not bound, `sendEvent` returns before doing
anything (use-analytics.ts lines 114-119): nothing is dispatched, nothing
is queued — even offline with the offline queue enabled — no retry is
scheduled and no error is recorded; the caller observes nothing. -/
theorem gtag_unavailable_silent_drop :
    ∀ (cfg : ClientConfig) (env : ClientEnv) (s : ClientState)
      (n p : String) (rc : Nat),
      env.gtagAvailable = false →
      sendEvent cfg env s n p rc = s := by
  intro cfg env s n p rc h
  simp [sendEvent, h]

/-- C10 witness: with `gtag` unbound, a track call while offline (offline
queue enabled) leaves the state exactly as it was. -/
theorem gtag_unavailable_silent_drop_witness :
    (⟨false, false, id⟩ : ClientEnv).gtagAvailable = false ∧
    sendEvent defaultClientConfig ⟨false, false, id⟩ ⟨false, [], [], [], []⟩
        "a" "p" 0 = (⟨false, [], [], [], []⟩ : ClientState) :=
  ⟨rfl, gtag_unavailable_silent_drop defaultClientConfig ⟨false, false, id⟩
    ⟨false, [], [], [], []⟩ "a" "p" 0 rfl⟩

end Client

namespace Webhook

/-- C2: a delivery whose signature verification throws — malformed header,
expired timestamp or digest mismatch all surface as the
`stripe.webhooks.constructEvent` throw, modelled as `verify = none` —
is answered with HTTP 400 and nothing else happens: no purchase is
tracked, no handler branch is entered (no info log), and the only trace
is the verification-failure error log.  Verification runs before anything
else in the handler. -/
theorem signature_failure_rejected :
    ∀ (env : WebhookEnv) (payload sig : String),
      env.verify payload sig = none →
      POST env payload sig =
        { status := 400, purchases := [],
          errorLogs := ["Webhook signature verification failed."],
          infoLogs := [] } := by
  intro env payload sig h
  simp [POST, h]

/-- C2 witness: a payload that does not verify in `happyEnv` is rejected
with 400 and no effects. -/
theorem signature_failure_rejected_witness :
    happyEnv.verify "bad" "sig" = none ∧
    POST happyEnv "bad" "sig" =
      { status := 400, purchases := [],
        errorLogs := ["Webhook signature verification failed."],
        infoLogs := [] } :=
  ⟨by decide, signature_failure_rejected happyEnv "bad" "sig" (by decide)⟩

/-- C1 counterexample: delivering the same verified event (`paidEvent`,
same `eventId`) twice produces a purchase-tracking side effect on BOTH
deliveries — two `PurchaseRecord` creations in total — because the handler
has no idempotency guard; the second delivery is processed fully rather
than returning `Duplicate` with zero side effects. -/
theorem replay_not_deduplicated :
    (runWebhooks happyEnv [("payload1", "sig"), ("payload1", "sig")]).map
        (fun r => r.purchases.length) = [1, 1] ∧
    ((runWebhooks happyEnv [("payload1", "sig"), ("payload1", "sig")]).map
        (fun r => r.purchases.length)).sum = 2 := by
  exact ⟨by decide, by decide⟩

/-- C1 amended: the webhook handler maintains no processed-event store
(none exists anywhere in the repository), so every delivery of the same
`eventId` is processed in full: replaying a verified paid checkout event
yields the identical result twice — each delivery tracks the purchase once
and answers 200; there is no `Fresh`/`Duplicate` distinction and no
short-circuit. -/
theorem replay_processed_twice :
    ∀ (env : WebhookEnv) (p sig : String) (e : StripeEvent)
      (items : List LineItem),
      env.verify p sig = some e →
      e.type = "checkout.session.completed" →
      e.session.payment_status = "paid" →
      truthyAmount e.session.amount_total = true →
      env.listLineItems e.session.id = some items →
      runWebhooks env [(p, sig), (p, sig)] =
        [purchaseResult e items, purchaseResult e items] := by
  intro env p sig e items h1 h2 h3 h4 h5
  simp [runWebhooks, POST, purchaseResult, h1, h2, h3, h4, h5]

/-- C1 amended witness: the concrete replay in `happyEnv`. -/
theorem replay_processed_twice_witness :
    (happyEnv.verify "payload1" "sig" = some paidEvent ∧
      paidEvent.type = "checkout.session.completed" ∧
      paidEvent.session.payment_status = "paid" ∧
      truthyAmount paidEvent.session.amount_total = true ∧
      happyEnv.listLineItems paidEvent.session.id = some [oneItem]) ∧
    runWebhooks happyEnv [("payload1", "sig"), ("payload1", "sig")] =
      [purchaseResult paidEvent [oneItem],
        purchaseResult paidEvent [oneItem]] :=
  ⟨⟨by decide, rfl, rfl, by decide, rfl⟩,
    replay_processed_twice happyEnv "payload1" "sig" paidEvent [oneItem]
      (by decide) rfl rfl (by decide) rfl⟩

/-- C7 counterexample: a verified `checkout.session.completed` payload with
`payment_status = 'paid'` but no `amount_total` — a missing required
field — is skipped silently: the handler answers 200 with no purchase
tracked, no error logged and no log at all; exactly the silent treatment
an unknown event type gets at the error level, where the claim demands an
operator-visible permanent `ReconciliationDataError`. -/
theorem missing_amount_silently_skipped :
    POST missingAmountEnv "p" "s" =
      { status := 200, purchases := [], errorLogs := [], infoLogs := [] } ∧
    (POST missingAmountEnv "p" "s").errorLogs = [] := by
  exact ⟨by decide, by decide⟩

/-- C7 amended: missing required payment fields do not raise any error.
A payment-completed payload whose `amount_total` is absent or zero (or
whose `payment_status` is not `'paid'`) is skipped with no tracking call,
no log of any kind and a 200 answer; a missing `currency` is silently
defaulted to `'USD'` and tracking proceeds; a refund event
(`charge.refunded`) has no handler branch at all in this variant and falls
through to the unhandled-type log.  No `ReconciliationDataError` exists in
the code. -/
theorem missing_fields_no_error :
    (∀ (env : WebhookEnv) (p sig : String) (e : StripeEvent),
      env.verify p sig = some e →
      e.type = "checkout.session.completed" →
      ¬ (e.session.payment_status = "paid" ∧
          truthyAmount e.session.amount_total = true) →
      POST env p sig =
        { status := 200, purchases := [], errorLogs := [],
          infoLogs := [] }) ∧
    (∀ (env : WebhookEnv) (p sig : String) (e : StripeEvent)
        (items : List LineItem),
      env.verify p sig = some e →
      e.type = "checkout.session.completed" →
      e.session.payment_status = "paid" →
      truthyAmount e.session.amount_total = true →
      e.session.currency = none →
      env.listLineItems e.session.id = some items →
      (POST env p sig).purchases.map TrackedPurchase.currency = ["USD"] ∧
      (POST env p sig).errorLogs = []) ∧
    (∀ (env : WebhookEnv) (p sig : String) (e : StripeEvent),
      env.verify p sig = some e →
      e.type = "charge.refunded" →
      POST env p sig =
        { status := 200, purchases := [], errorLogs := [],
          infoLogs := ["Unhandled event type charge.refunded"] }) := by
  refine ⟨?_, ?_, ?_⟩
  · intro env p sig e h1 h2 h3
    simp [POST, h1, h2, h3]
  · intro env p sig e items h1 h2 h3 h4 h5 h6
    simp [POST, currencyOf, jsOrString, h1, h2, h3, h4, h5, h6]
  · intro env p sig e h1 h2
    simp [POST, h1, h2]

/-- C7 amended witness: the missing-amount event is skipped with no error;
a paid event without a currency is tracked as `USD` with no error; a
refund event falls to the unhandled-type log. -/
theorem missing_fields_no_error_witness :
    (POST missingAmountEnv "p" "s" =
      { status := 200, purchases := [], errorLogs := [],
        infoLogs := [] }) ∧
    ((POST (⟨fun _ _ => some ⟨"evt_3", "checkout.session.completed",
          ⟨"cs_3", "paid", some 100, none⟩⟩,
        fun _ => some [oneItem]⟩ : WebhookEnv) "p" "s").purchases.map
        TrackedPurchase.currency = ["USD"] ∧
      (POST (⟨fun _ _ => some ⟨"evt_3", "checkout.session.completed",
          ⟨"cs_3", "paid", some 100, none⟩⟩,
        fun _ => some [oneItem]⟩ : WebhookEnv) "p" "s").errorLogs = []) ∧
    (POST (⟨fun _ _ => some ⟨"evt_4", "charge.refunded",
          ⟨"cs_4", "paid", some 100, some "usd"⟩⟩,
        fun _ => some [oneItem]⟩ : WebhookEnv) "p" "s" =
      { status := 200, purchases := [], errorLogs := [],
        infoLogs := ["Unhandled event type charge.refunded"] }) :=
  ⟨missing_fields_no_error.1 missingAmountEnv "p" "s" missingAmountEvent
      rfl rfl (by decide),
    missing_fields_no_error.2.1 _ "p" "s"
      ⟨"evt_3", "checkout.session.completed",
        ⟨"cs_3", "paid", some 100, none⟩⟩ [oneItem]
      rfl rfl rfl (by decide) rfl rfl,
    missing_fields_no_error.2.2 _ "p" "s"
      ⟨"evt_4", "charge.refunded", ⟨"cs_4", "paid", some 100, some "usd"⟩⟩
      rfl rfl⟩

/-- C8 counterexample: a verified paid checkout event whose line-item
fetch (the external catalog lookup) fails — a transient failure — is
answered with HTTP 200, not a retryable 5xx: the `catch` at lines 272-274
of page.tsx swallows the failure into a `console.error` and the handler
acknowledges, so the sender never redelivers. -/
theorem line_item_fetch_failure_acked :
    POST fetchFailEnv "p" "s" =
      { status := 200, purchases := [],
        errorLogs := ["Failed to track purchase:"], infoLogs := [] } ∧
    (POST fetchFailEnv "p" "s").status = 200 := by
  exact ⟨by decide, by decide⟩

/-- C8 amended: a transient failure of the line-item fetch is caught
inside the handler: the purchase is not tracked, the failure is only
logged (`Failed to track purchase`), and the endpoint still returns 200 —
the analytics handler draws no transient/permanent distinction at the
HTTP boundary and never provokes sender redelivery. -/
theorem line_item_fetch_failure_returns_200 :
    ∀ (env : WebhookEnv) (p sig : String) (e : StripeEvent),
      env.verify p sig = some e →
      e.type = "checkout.session.completed" →
      e.session.payment_status = "paid" →
      truthyAmount e.session.amount_total = true →
      env.listLineItems e.session.id = none →
      POST env p sig =
        { status := 200, purchases := [],
          errorLogs := ["Failed to track purchase:"], infoLogs := [] } := by
  intro env p sig e h1 h2 h3 h4 h5
  simp [POST, h1, h2, h3, h4, h5]

/-- C8 amended witness: the concrete failing fetch in `fetchFailEnv`. -/
theorem line_item_fetch_failure_returns_200_witness :
    (fetchFailEnv.verify "p" "s" = some paidEvent ∧
      fetchFailEnv.listLineItems paidEvent.session.id = none) ∧
    POST fetchFailEnv "p" "s" =
      { status := 200, purchases := [],
        errorLogs := ["Failed to track purchase:"], infoLogs := [] } :=
  ⟨⟨rfl, rfl⟩,
    line_item_fetch_failure_returns_200 fetchFailEnv "p" "s" paidEvent
      rfl rfl rfl (by decide) rfl⟩

end Webhook

end PrintStore
